import Mathlib

set_option linter.unusedVariables false

/-!
Verification of the odiadev-tts repository's TTS gateway logic.

The repository contains two near-duplicate Flask applications:
  * src/odiadev-render-app.py  (namespace `RenderApp` below)
  * src/app.py                 (namespace `App` below)

Each shells out to the external `edge-tts` executable.  The external
process run is abstracted by a `ProcOutcome` value describing how the
`subprocess.run` call ended and what the process wrote to the temp file;
everything else (voice resolution, temp-file lifecycle, response
selection) is embedded directly from the Python source.

Components the spec describes that are absent from src/ (the retry
controller with backoff, the output validator, and the gateway that
validates keys and text length) are modelled from the spec's words in
namespace `SpecModel`.
-/

namespace OdiaTTS

/-- Outcome of one `subprocess.run` invocation of `edge-tts`.  `written` is
`some content` when the process wrote the media file (with `content` its
bytes, each a value below 256) and `none` when it did not; `timeout` is the
`subprocess.TimeoutExpired` path and `raised` any other exception raised by
the call. -/
inductive ProcOutcome where
  | exited (returncode : Int) (written : Option (List Nat))
  | timeout (written : Option (List Nat))
  | raised (written : Option (List Nat))
deriving DecidableEq

/-- Result of one synthesis call: the value returned to the route handler,
whether the temporary file is still on disk afterwards, and the provider
voice identifier that was used. -/
structure SynthResult where
  audio : Option (List Nat)
  tempFileLeft : Bool
  voiceUsed : String
deriving DecidableEq

/-- HTTP response produced by a speak route: either a 200 audio response
with a body and content type, or a JSON error object with a status code. -/
inductive SpeakResponse where
  | audio (status : Nat) (body : List Nat) (contentType : String)
  | jsonErr (status : Nat) (error : String)
deriving DecidableEq

namespace RenderApp

/-- The `VOICES` dict of src/odiadev-render-app.py. -/
def VOICES : List (String × String) :=
  [("female", "en-NG-EzinneNeural"),
   ("male", "en-NG-AbeoNeural"),
   ("ezinne", "en-NG-EzinneNeural"),
   ("abeo", "en-NG-AbeoNeural"),
   ("lexi", "en-US-AriaNeural"),
   ("atlas", "en-US-GuyNeural")]

/-- Python `VOICES.get(voice)`: first matching key, `none` when absent. -/
def voicesGet (v : String) : Option String :=
  (VOICES.find? (fun p => p.1 == v)).map (fun p => p.2)

/-- Python `VOICES["female"]` (present in the dict). -/
def femaleVoice : String := (voicesGet "female").getD ""

/-- Python `VOICES.get(voice, VOICES["female"])`. -/
def resolveVoice (v : String) : String := (voicesGet v).getD femaleVoice

/-- Embedding of `generate_tts_cli` (src/odiadev-render-app.py, lines
63-113).  The temp file path is fresh and the process creates the file
itself, so after the run the file exists iff `written` is `some`.  The
`try` body returns the audio (reading and removing the file on the
success branch); the `finally` block removes the file whenever it still
exists, so no outcome leaves it behind. -/
def generate_tts_cli (text voice : String) (o : ProcOutcome) : SynthResult :=
  let voice_id := resolveVoice voice
  -- value returned by the try/except body, and whether the temp file
  -- still exists after that body ran
  let tryResult : Option (List Nat) × Bool :=
    match o with
    | .exited rc written =>
        if rc = 0 then
          match written with
          | some content => (some content, false)  -- read file, os.remove
          | none => (none, false)                  -- os.path.exists false
        else
          (none, written.isSome)                   -- stderr branch, no removal
    | .timeout written => (none, written.isSome)
    | .raised written => (none, written.isSome)
  -- finally: if os.path.exists(temp_file): os.remove(temp_file)
  { audio := tryResult.1, tempFileLeft := false, voiceUsed := voice_id }

/-- Embedding of the `/speak` route (src/odiadev-render-app.py, lines
360-387).  `text?`/`voice?` model `data.get("text", "")` and
`data.get("voice", "female")` (request args likewise); the second
component of the result records whether the provider was invoked. -/
def speak (text? voice? : Option String) (o : ProcOutcome) :
    SpeakResponse × Bool :=
  let text := text?.getD ""
  let voice := voice?.getD "female"
  if text = "" then
    (.jsonErr 400 "No text provided", false)
  else
    match (generate_tts_cli text voice o).audio with
    | some audio_data =>
        -- Python `if audio_data:` — empty bytes are falsy
        if audio_data = [] then
          (.jsonErr 500 "TTS generation failed", true)
        else
          (.audio 200 audio_data "audio/mpeg", true)
    | none => (.jsonErr 500 "TTS generation failed", true)

/-- A row of the `api_keys` table (src/odiadev-render-app.py, lines 50-57). -/
structure APIKey where
  id : String
  name : String
  key_hash : String
  key_prefix : String
deriving DecidableEq

/-- Response of the `/api/create-key` route. -/
inductive CreateKeyResponse where
  | err (status : Nat) (error : String)
  | created (id name api_key message : String)
deriving DecidableEq

/-- Embedding of `create_api_key` (src/odiadev-render-app.py, lines
408-436).  `auth` is the `Authorization` header (defaulted to `""` by the
route), `name?` models `data.get("name", "API Key")`, `key_id` and
`raw_key` stand for the freshly drawn `secrets.token_hex` values,
`sha256hex` abstracts `hashlib.sha256(...).hexdigest()`, and `store` is
the current key table; the returned list is the table afterwards. -/
def create_api_key (ADMIN_TOKEN auth : String) (name? : Option String)
    (key_id raw_key : String) (sha256hex : String → String)
    (store : List APIKey) : CreateKeyResponse × List APIKey :=
  if auth ≠ "Bearer " ++ ADMIN_TOKEN then
    (.err 403 "Unauthorized", store)
  else
    let name := name?.getD "API Key"
    let key_hash := sha256hex raw_key
    let new_key : APIKey :=
      { id := key_id, name := name, key_hash := key_hash,
        key_prefix := raw_key.take 12 }
    (.created key_id name raw_key "Save this key securely!",
      store ++ [new_key])

end RenderApp

namespace App

/-- The `VOICES` dict of src/app.py. -/
def VOICES : List (String × String) :=
  [("female", "en-NG-EzinneNeural"),
   ("male", "en-NG-AbeoNeural"),
   ("ezinne", "en-NG-EzinneNeural"),
   ("abeo", "en-NG-AbeoNeural"),
   ("yoruba_female", "en-NG-EzinneNeural"),
   ("yoruba_male", "en-NG-AbeoNeural"),
   ("hausa_female", "en-NG-EzinneNeural"),
   ("hausa_male", "en-NG-AbeoNeural"),
   ("igbo_female", "en-NG-EzinneNeural"),
   ("igbo_male", "en-NG-AbeoNeural")]

/-- Python `VOICES.get(voice)`: first matching key, `none` when absent. -/
def voicesGet (v : String) : Option String :=
  (VOICES.find? (fun p => p.1 == v)).map (fun p => p.2)

/-- Python `VOICES["female"]` (present in the dict). -/
def femaleVoice : String := (voicesGet "female").getD ""

/-- Python `VOICES.get(voice, VOICES["female"])`. -/
def resolveVoice (v : String) : String := (voicesGet v).getD femaleVoice

/-- Embedding of `generate_speech` (src/app.py, lines 30-65).  The temp
file is pre-created by `tempfile.NamedTemporaryFile(delete=False)`, so it
exists in every outcome and `os.path.exists(temp_path)` is true; its
content is `written.getD []` (the pre-created file is empty when the
process wrote nothing).  On a non-zero exit code the function returns
`None` without removing the file; the `except Exception` handler (which
also catches `TimeoutExpired`) unlinks it. -/
def generate_speech (text voice : String) (o : ProcOutcome) : SynthResult :=
  let voice_id := resolveVoice voice
  let body : Option (List Nat) × Bool :=
    match o with
    | .exited rc written =>
        if rc = 0 then
          (some (written.getD []), false)  -- read file, os.unlink
        else
          (none, true)                     -- stderr branch: no cleanup
    | .timeout _ => (none, false)          -- caught, os.unlink
    | .raised _ => (none, false)           -- caught, os.unlink
  { audio := body.1, tempFileLeft := body.2, voiceUsed := voice_id }

/-- Embedding of the `/api/speak` route (src/app.py, lines 511-532).
`text?`/`voice?` model `data.get('text', '')` and
`data.get('voice', 'female')`; the second component records whether the
provider was invoked. -/
def api_speak (text? voice? : Option String) (o : ProcOutcome) :
    SpeakResponse × Bool :=
  let text := text?.getD ""
  let voice := voice?.getD "female"
  if text = "" then
    (.jsonErr 400 "No text provided", false)
  else
    match (generate_speech text voice o).audio with
    | some audio_data =>
        if audio_data = [] then
          (.jsonErr 500 "TTS generation failed", true)
        else
          (.audio 200 audio_data "audio/mpeg", true)
    | none => (.jsonErr 500 "TTS generation failed", true)

/-- The process outcomes on which `generate_speech` leaves its temporary
file behind: exactly the non-zero process exits (the `else` branch of the
returncode test returns without removing the pre-created file). -/
def leaksTempFile : ProcOutcome → Bool
  | .exited rc _ => !(rc == 0)
  | .timeout _ => false
  | .raised _ => false

end App

namespace SpecModel

/-- Trace of one run of the retry controller: how many attempts were made,
the sleeps (in seconds) performed between attempts, and the final result. -/
structure RetryTrace (α : Type) where
  attempts : Nat
  sleeps : List ℚ
  result : Option α
deriving DecidableEq

/-- Modelled from the spec: the retry/backoff controller of section 4.3 is
absent from src/ (neither application retries a failed synthesis).  Worker
of `withRetry`: `remaining` attempts are left and `i` is the index of the
next attempt.  The operation is attempted; on failure with further
attempts remaining the controller sleeps `2 ^ i + c` seconds and goes on;
no sleep follows the last attempt. -/
def withRetryAux (op : Nat → Option α) (c : ℚ) :
    Nat → Nat → RetryTrace α
  | 0, _ => { attempts := 0, sleeps := [], result := none }
  | 1, i => { attempts := 1, sleeps := [], result := op i }
  | (n + 2), i =>
      match op i with
      | some r => { attempts := 1, sleeps := [], result := some r }
      | none =>
          let rest := withRetryAux op c (n + 1) (i + 1)
          { attempts := rest.attempts + 1,
            sleeps := ((2 : ℚ) ^ i + c) :: rest.sleeps,
            result := rest.result }

/-- Modelled from the spec: `withRetry(op, maxAttempts, baseDelay)` of
section 4.3, with `c` the small additive offset (observed 0.5 or 0.1). -/
def withRetry (op : Nat → Option α) (maxAttempts : Nat) (c : ℚ) :
    RetryTrace α :=
  withRetryAux op c maxAttempts 0

/-- Modelled from the spec: the output validator of section 4.2 is absent
from src/.  Accept/reject result of the validator. -/
inductive ValidationResult where
  | accept
  | reject (reason : String)
deriving DecidableEq

/-- Whether the first three bytes are the ID3 tag signature `"ID3"`. -/
def isID3 (b : List Nat) : Bool := b.take 3 == [0x49, 0x44, 0x33]

/-- Whether the first byte is `0xFF` and the top three bits of the second
byte are all set (MPEG audio frame sync pattern). -/
def isMpegSync (b : List Nat) : Bool :=
  match b with
  | b0 :: b1 :: _ => b0 == 0xFF && Nat.land b1 0xE0 == 0xE0
  | _ => false

/-- Modelled from the spec: the output validator of section 4.2, absent
from src/.  Rules in order: (a) the byte length must exceed the minimum
threshold `minLen`; (b) the first bytes must be the ID3 signature or an
MPEG frame sync pattern. -/
def validateOutput (minLen : Nat) (b : List Nat) : ValidationResult :=
  if b.length ≤ minLen then .reject "output below minimum size"
  else if isID3 b || isMpegSync b then .accept
  else .reject "unrecognized audio format"

/-- An inbound speak request as the spec-modelled gateway sees it:
the text, the requested voice, and the API key carried by the
`x-api-key` header or bearer token (`none` when absent). -/
structure SpeakRequest where
  text : String
  voice : String
  apiKey : Option String

/-- Terminal outcome of the spec-modelled gateway. -/
inductive GatewayOutcome where
  | unauthorized
  | invalidRequest (error : String)
  | ok (audio : List Nat)
  | allProvidersFailed
deriving DecidableEq

/-- HTTP status corresponding to a gateway outcome (spec section 6). -/
def statusOf : GatewayOutcome → Nat
  | .unauthorized => 401
  | .invalidRequest _ => 400
  | .ok _ => 200
  | .allProvidersFailed => 500

/-- Modelled from the spec: the key validator of section 4.5, static-set
variant, absent from src/ (no route in src/ checks a key).  A request key
is valid iff present and a member of the configured allow-list. -/
def keyValid (validKeys : List String) (k : Option String) : Bool :=
  match k with
  | none => false
  | some raw => validKeys.contains raw

/-- Modelled from the spec: the request gateway of section 4.6 with key
validation (section 4.5) and the text length limit (section 3), both
absent from src/.  Per the state machine
`Received → KeyValidated → TextValidated → Synthesizing → Responded`,
the key is checked first (skipped in demo mode), then the text (non-empty
and at most `maxLen` characters), and only then is the provider cascade
`synth` invoked.  The second component records whether any provider was
invoked. -/
def gatewaySpeak (validKeys : List String) (demoMode : Bool) (maxLen : Nat)
    (synth : String → String → Option (List Nat)) (req : SpeakRequest) :
    GatewayOutcome × Bool :=
  if !demoMode && !(keyValid validKeys req.apiKey) then
    (.unauthorized, false)
  else if req.text = "" then
    (.invalidRequest "No text provided", false)
  else if maxLen < req.text.length then
    (.invalidRequest "Text too long", false)
  else
    match synth req.text req.voice with
    | some audio => (.ok audio, true)
    | none => (.allProvidersFailed, true)

end SpecModel

/-! ## Theorems -/

/-- The retry controller never makes more attempts than it has left. -/
theorem withRetryAux_attempts_le {α : Type} (op : Nat → Option α) (c : ℚ) :
    ∀ n i, (SpecModel.withRetryAux op c n i).attempts ≤ n
  | 0, i => by simp [SpecModel.withRetryAux]
  | 1, i => by simp [SpecModel.withRetryAux]
  | (n + 2), i => by
      rw [SpecModel.withRetryAux]
      cases h : op i with
      | some r => simp
      | none =>
          simp only []
          have := withRetryAux_attempts_le op c (n + 1) (i + 1)
          simp
          omega

/-- On an operation that always fails, the worker uses all its attempts,
sleeps the backoff delays between consecutive attempts (none after the
last), and returns failure. -/
theorem withRetryAux_all_fail {α : Type} (op : Nat → Option α) (c : ℚ)
    (h : ∀ j, op j = none) :
    ∀ n i, SpecModel.withRetryAux op c n i =
      { attempts := n,
        sleeps := (List.range' i (n - 1)).map (fun j => (2 : ℚ) ^ j + c),
        result := none }
  | 0, i => by simp [SpecModel.withRetryAux]
  | 1, i => by simp [SpecModel.withRetryAux, h i]
  | (n + 2), i => by
      rw [SpecModel.withRetryAux, h i]
      rw [withRetryAux_all_fail op c h (n + 1) (i + 1)]
      simp [List.range'_succ]

/-- On an operation that first succeeds at attempt index `k` (counting
from the worker's start index), the worker stops after `k + 1` attempts
with that result, having slept only between the failed attempts. -/
theorem withRetryAux_first_success {α : Type} (op : Nat → Option α) (c : ℚ) :
    ∀ k n i r, k < n → (∀ j, j < k → op (i + j) = none) →
      op (i + k) = some r →
      SpecModel.withRetryAux op c n i =
        { attempts := k + 1,
          sleeps := (List.range' i k).map (fun j => (2 : ℚ) ^ j + c),
          result := some r }
  | 0, n, i, r => by
      intro hk hfail hsucc
      simp only [Nat.add_zero] at hsucc
      match n, hk with
      | 1, _ => simp [SpecModel.withRetryAux, hsucc]
      | (m + 2), _ => simp [SpecModel.withRetryAux, hsucc]
  | (k + 1), n, i, r => by
      intro hk hfail hsucc
      have h0 : op i = none := by
        have := hfail 0 (Nat.succ_pos k)
        simpa using this
      match n, hk with
      | (m + 2), hk =>
        rw [SpecModel.withRetryAux, h0]
        rw [withRetryAux_first_success op c k (m + 1) (i + 1) r
          (by omega)
          (fun j hj => by
            have := hfail (j + 1) (by omega)
            simpa [Nat.add_assoc, Nat.add_comm 1 j] using this)
          (by
            have : i + 1 + k = i + (k + 1) := by omega
            rw [this, hsucc])]
        simp [List.range'_succ]

/-- C1: for every synthesis operation that fails, the retry controller
attempts the operation again, up to `maxAttempts` times in total, and
between consecutive attempts (but not after the last) it sleeps
`2 ^ attemptIndex + c` seconds: the attempt count never exceeds
`maxAttempts`; when every attempt fails, exactly `maxAttempts` attempts
are made with the `maxAttempts - 1` backoff sleeps in between; and when
the operation first succeeds at attempt index `k`, `k + 1` attempts are
made with the first `k` backoff sleeps in between. -/
theorem claim_C1_retry_backoff {α : Type} (op : Nat → Option α)
    (maxAttempts : Nat) (c : ℚ) :
    (SpecModel.withRetry op maxAttempts c).attempts ≤ maxAttempts ∧
    ((∀ i, op i = none) →
      SpecModel.withRetry op maxAttempts c =
        { attempts := maxAttempts,
          sleeps := (List.range (maxAttempts - 1)).map
            (fun i => (2 : ℚ) ^ i + c),
          result := none }) ∧
    (∀ k r, k < maxAttempts → (∀ i, i < k → op i = none) → op k = some r →
      SpecModel.withRetry op maxAttempts c =
        { attempts := k + 1,
          sleeps := (List.range k).map (fun i => (2 : ℚ) ^ i + c),
          result := some r }) := by
  refine ⟨withRetryAux_attempts_le op c maxAttempts 0, ?_, ?_⟩
  · intro h
    rw [SpecModel.withRetry, withRetryAux_all_fail op c h maxAttempts 0,
      List.range_eq_range']
  · intro k r hk hfail hsucc
    rw [SpecModel.withRetry,
      withRetryAux_first_success op c k maxAttempts 0 r hk
        (fun j hj => by simpa using hfail j hj) (by simpa using hsucc),
      List.range_eq_range']

/-- Witness for C1 at the observed defaults `maxAttempts = 3`,
`c = 1/2`: an always-failing operation is attempted 3 times with sleeps
of `2^0 + 1/2` and `2^1 + 1/2` seconds in between, and an operation that
fails once then succeeds is attempted twice with a single sleep. -/
theorem claim_C1_retry_backoff_witness :
    (SpecModel.withRetry (fun _ => (none : Option Unit)) 3 (1/2)).attempts
        = 3 ∧
    (SpecModel.withRetry (fun _ => (none : Option Unit)) 3 (1/2)).sleeps
        = [(2 : ℚ) ^ 0 + 1/2, (2 : ℚ) ^ 1 + 1/2] ∧
    (SpecModel.withRetry (fun _ => (none : Option Unit)) 3 (1/2)).result
        = none ∧
    (SpecModel.withRetry
        (fun i => if i = 1 then some () else none) 3 (1/2)).attempts = 2 ∧
    (SpecModel.withRetry
        (fun i => if i = 1 then some () else none) 3 (1/2)).sleeps
        = [(2 : ℚ) ^ 0 + 1/2] := by
  have hall := (claim_C1_retry_backoff
    (fun _ => (none : Option Unit)) 3 (1/2)).2.1 (fun i => rfl)
  have hsucc := (claim_C1_retry_backoff
    (fun i => if i = 1 then some () else none) 3 (1/2)).2.2 1 ()
    (by omega)
    (fun i hi => by
      have : i = 0 := by omega
      subst this
      rfl)
    rfl
  rw [hall, hsucc]
  exact ⟨rfl, rfl, rfl, rfl, rfl⟩

/-- C2: the output validator rejects every byte sequence not exceeding
the minimum length threshold, rejects every long-enough sequence whose
first bytes are neither the ID3 tag signature nor an MPEG frame-sync
pattern, and accepts exactly the sequences passing both checks. -/
theorem claim_C2_output_validator (minLen : Nat) (b : List Nat) :
    (b.length ≤ minLen →
      SpecModel.validateOutput minLen b =
        .reject "output below minimum size") ∧
    (minLen < b.length → SpecModel.isID3 b = false →
      SpecModel.isMpegSync b = false →
      SpecModel.validateOutput minLen b =
        .reject "unrecognized audio format") ∧
    (minLen < b.length →
      (SpecModel.isID3 b = true ∨ SpecModel.isMpegSync b = true) →
      SpecModel.validateOutput minLen b = .accept) := by
  refine ⟨?_, ?_, ?_⟩
  · intro h
    simp [SpecModel.validateOutput, h]
  · intro h h1 h2
    simp [SpecModel.validateOutput, Nat.not_le.mpr h, h1, h2]
  · intro h hfmt
    rcases hfmt with h1 | h1 <;>
      simp [SpecModel.validateOutput, Nat.not_le.mpr h, h1]

/-- Witness for C2 at the observed threshold 500: a 300-byte sequence is
rejected for size; a 600-byte all-zero sequence is rejected for format;
sequences led by an MPEG sync pattern or the ID3 signature are accepted. -/
theorem claim_C2_output_validator_witness :
    SpecModel.validateOutput 500 (List.replicate 300 0) =
      .reject "output below minimum size" ∧
    SpecModel.validateOutput 500 (List.replicate 600 0) =
      .reject "unrecognized audio format" ∧
    SpecModel.validateOutput 500 (0xFF :: 0xE3 :: List.replicate 600 0) =
      .accept ∧
    SpecModel.validateOutput 500
      (0x49 :: 0x44 :: 0x33 :: List.replicate 600 0) = .accept := by
  refine ⟨?_, ?_, ?_, ?_⟩
  · exact (claim_C2_output_validator 500 _).1
      (by rw [List.length_replicate]; omega)
  · exact (claim_C2_output_validator 500 _).2.1
      (by rw [List.length_replicate]; omega) (by decide) (by decide)
  · exact (claim_C2_output_validator 500 _).2.2
      (by simp only [List.length_cons, List.length_replicate]; omega)
      (Or.inr (by decide))
  · exact (claim_C2_output_validator 500 _).2.2
      (by simp only [List.length_cons, List.length_replicate]; omega)
      (Or.inl (by decide))

/-- C3: when demo mode is off, every speak request without a valid API
key gets outcome `unauthorized` (HTTP 401) and no provider is invoked. -/
theorem claim_C3_unauthorized (validKeys : List String) (maxLen : Nat)
    (synth : String → String → Option (List Nat))
    (req : SpecModel.SpeakRequest)
    (h : SpecModel.keyValid validKeys req.apiKey = false) :
    SpecModel.gatewaySpeak validKeys false maxLen synth req =
      (.unauthorized, false) ∧
    SpecModel.statusOf
      (SpecModel.gatewaySpeak validKeys false maxLen synth req).1 = 401 := by
  constructor
  · simp [SpecModel.gatewaySpeak, h]
  · simp [SpecModel.gatewaySpeak, h, SpecModel.statusOf]

/-- Witness for C3: a request carrying a key outside the allow-list is
answered 401 and the provider is not called. -/
theorem claim_C3_unauthorized_witness :
    SpecModel.keyValid ["valid-key"] (some "wrong") = false ∧
    SpecModel.gatewaySpeak ["valid-key"] false 1000 (fun _ _ => none)
      { text := "Hello Nigeria!", voice := "female",
        apiKey := some "wrong" } = (.unauthorized, false) :=
  ⟨by decide,
    (claim_C3_unauthorized ["valid-key"] 1000 (fun _ _ => none)
      { text := "Hello Nigeria!", voice := "female",
        apiKey := some "wrong" } (by decide)).1⟩

/-- C4: every speak request whose text exceeds the configured maximum
length is answered without invoking any provider, and — since per the
spec's state machine key validation precedes text validation — whenever
the request passes key validation (or demo mode is on) the outcome is the
400 `invalidRequest`. -/
theorem claim_C4_oversized_text (validKeys : List String)
    (demoMode : Bool) (maxLen : Nat)
    (synth : String → String → Option (List Nat))
    (req : SpecModel.SpeakRequest)
    (h : maxLen < req.text.length) :
    (SpecModel.gatewaySpeak validKeys demoMode maxLen synth req).2
        = false ∧
    ((demoMode = true ∨ SpecModel.keyValid validKeys req.apiKey = true) →
      SpecModel.gatewaySpeak validKeys demoMode maxLen synth req =
        (.invalidRequest "Text too long", false) ∧
      SpecModel.statusOf
        (SpecModel.gatewaySpeak validKeys demoMode maxLen synth req).1
          = 400) := by
  have hne : ¬req.text = "" := by
    intro e
    rw [e] at h
    simp at h
  constructor
  · cases hd : demoMode <;>
      cases hkv : SpecModel.keyValid validKeys req.apiKey <;>
        simp [SpecModel.gatewaySpeak, hd, hkv, hne, h]
  · intro hauth
    have hcond : (!demoMode && !(SpecModel.keyValid validKeys req.apiKey))
        = false := by
      rcases hauth with ha | ha <;> simp [ha]
    simp [SpecModel.gatewaySpeak, hcond, hne, h, SpecModel.statusOf]

/-- Witness for C4: a 14-character text against a 5-character limit from
an authorized caller is answered 400 without a provider call. -/
theorem claim_C4_oversized_text_witness :
    (5 : Nat) < ("Hello Nigeria!" : String).length ∧
    SpecModel.gatewaySpeak ["valid-key"] false 5 (fun _ _ => none)
      { text := "Hello Nigeria!", voice := "female",
        apiKey := some "valid-key" } =
      (.invalidRequest "Text too long", false) :=
  ⟨by decide,
    ((claim_C4_oversized_text ["valid-key"] false 5 (fun _ _ => none)
      { text := "Hello Nigeria!", voice := "female",
        apiKey := some "valid-key" } (by decide)).2
      (Or.inr (by decide))).1⟩

/-- C5 counterexample: `generate_speech` (src/app.py) does not delete its
temporary file on every exit path — when the process exits with code 1,
the file is left behind. -/
theorem claim_C5_counterexample :
    (App.generate_speech "Hello Nigeria!" "female"
      (.exited 1 none)).tempFileLeft = true := by
  rfl

/-- C5 amended: `generate_tts_cli` (src/odiadev-render-app.py) deletes
its temporary file on every exit path; `generate_speech` (src/app.py)
deletes it on the success, timeout, and exception paths, but leaves it
behind exactly when the process exits non-zero. -/
theorem claim_C5_temp_file_cleanup (text voice : String)
    (o : ProcOutcome) :
    (RenderApp.generate_tts_cli text voice o).tempFileLeft = false ∧
    (App.generate_speech text voice o).tempFileLeft =
      App.leaksTempFile o := by
  refine ⟨rfl, ?_⟩
  cases o with
  | exited rc written =>
      by_cases h : rc = 0 <;>
        simp [App.generate_speech, App.leaksTempFile, h]
  | timeout written => rfl
  | raised written => rfl

/-- C6: for every speak request that reaches synthesis (non-empty text),
the synthesis outcome determines the terminal response: audio produced by
the provider yields a 200 response with the raw bytes and content type
`audio/mpeg`, and provider failure yields the 500 JSON error, in both
applications. -/
theorem claim_C6_outcome_determines_response (text voice : String)
    (o : ProcOutcome) (ht : text ≠ "") :
    (∀ a, (RenderApp.generate_tts_cli text voice o).audio = some a →
      a ≠ [] →
      RenderApp.speak (some text) (some voice) o =
        (.audio 200 a "audio/mpeg", true)) ∧
    ((RenderApp.generate_tts_cli text voice o).audio = none →
      RenderApp.speak (some text) (some voice) o =
        (.jsonErr 500 "TTS generation failed", true)) ∧
    (∀ a, (App.generate_speech text voice o).audio = some a → a ≠ [] →
      App.api_speak (some text) (some voice) o =
        (.audio 200 a "audio/mpeg", true)) ∧
    ((App.generate_speech text voice o).audio = none →
      App.api_speak (some text) (some voice) o =
        (.jsonErr 500 "TTS generation failed", true)) := by
  refine ⟨?_, ?_, ?_, ?_⟩
  · intro a ha hne
    simp [RenderApp.speak, ht, ha, hne]
  · intro ha
    simp [RenderApp.speak, ht, ha]
  · intro a ha hne
    simp [App.api_speak, ht, ha, hne]
  · intro ha
    simp [App.api_speak, ht, ha]

/-- Witness for C6: a successful run returning two MPEG bytes is served
as a 200 `audio/mpeg` response, and a timed-out run is served the 500
JSON error. -/
theorem claim_C6_outcome_determines_response_witness :
    RenderApp.speak (some "Hello Nigeria!") (some "female")
      (.exited 0 (some [0xFF, 0xE3])) =
      (.audio 200 [0xFF, 0xE3] "audio/mpeg", true) ∧
    RenderApp.speak (some "Hello Nigeria!") (some "female")
      (.timeout none) = (.jsonErr 500 "TTS generation failed", true) ∧
    App.api_speak (some "Hello Nigeria!") (some "female")
      (.exited 0 (some [0xFF, 0xE3])) =
      (.audio 200 [0xFF, 0xE3] "audio/mpeg", true) ∧
    App.api_speak (some "Hello Nigeria!") (some "female")
      (.raised none) = (.jsonErr 500 "TTS generation failed", true) :=
  ⟨(claim_C6_outcome_determines_response "Hello Nigeria!" "female"
      (.exited 0 (some [0xFF, 0xE3])) (by decide)).1 _ rfl (by decide),
   (claim_C6_outcome_determines_response "Hello Nigeria!" "female"
      (.timeout none) (by decide)).2.1 rfl,
   (claim_C6_outcome_determines_response "Hello Nigeria!" "female"
      (.exited 0 (some [0xFF, 0xE3])) (by decide)).2.2.1 _ rfl (by decide),
   (claim_C6_outcome_determines_response "Hello Nigeria!" "female"
      (.raised none) (by decide)).2.2.2 rfl⟩

/-- C7: a speak request whose text is missing or empty is answered
400 with the JSON error `No text provided`, and no provider is invoked,
in both applications. -/
theorem claim_C7_empty_text (voice? : Option String) (o : ProcOutcome) :
    RenderApp.speak none voice? o =
      (.jsonErr 400 "No text provided", false) ∧
    RenderApp.speak (some "") voice? o =
      (.jsonErr 400 "No text provided", false) ∧
    App.api_speak none voice? o =
      (.jsonErr 400 "No text provided", false) ∧
    App.api_speak (some "") voice? o =
      (.jsonErr 400 "No text provided", false) := by
  refine ⟨?_, ?_, ?_, ?_⟩ <;> rfl

/-- C8: voice resolution is total — a voice string that is not a key of
the static voice map falls back to the female Nigerian voice identifier
`en-NG-EzinneNeural` in both synthesis functions. -/
theorem claim_C8_voice_fallback (v text : String) (o : ProcOutcome) :
    (RenderApp.voicesGet v = none →
      (RenderApp.generate_tts_cli text v o).voiceUsed
        = "en-NG-EzinneNeural") ∧
    (App.voicesGet v = none →
      (App.generate_speech text v o).voiceUsed
        = "en-NG-EzinneNeural") := by
  constructor
  · intro h
    show RenderApp.resolveVoice v = _
    rw [RenderApp.resolveVoice, h]
    rfl
  · intro h
    show App.resolveVoice v = _
    rw [App.resolveVoice, h]
    rfl

/-- Witness for C8: the string `piano` is not a voice-map key of either
application and resolves to the female Nigerian voice in both. -/
theorem claim_C8_voice_fallback_witness :
    RenderApp.voicesGet "piano" = none ∧
    App.voicesGet "piano" = none ∧
    (RenderApp.generate_tts_cli "Hello Nigeria!" "piano"
      (.timeout none)).voiceUsed = "en-NG-EzinneNeural" ∧
    (App.generate_speech "Hello Nigeria!" "piano"
      (.timeout none)).voiceUsed = "en-NG-EzinneNeural" :=
  ⟨by decide, by decide,
   (claim_C8_voice_fallback "piano" "Hello Nigeria!"
      (.timeout none)).1 (by decide),
   (claim_C8_voice_fallback "piano" "Hello Nigeria!"
      (.timeout none)).2 (by decide)⟩

/-- C9: when synthesis yields a zero-length byte sequence (the process
exits successfully but the file is empty), both speak endpoints answer
the 500 JSON failure, never a 200 with an empty body. -/
theorem claim_C9_empty_audio (text voice : String) (o : ProcOutcome)
    (ht : text ≠ "") :
    ((RenderApp.generate_tts_cli text voice o).audio = some [] →
      RenderApp.speak (some text) (some voice) o =
        (.jsonErr 500 "TTS generation failed", true)) ∧
    ((App.generate_speech text voice o).audio = some [] →
      App.api_speak (some text) (some voice) o =
        (.jsonErr 500 "TTS generation failed", true)) := by
  constructor
  · intro ha
    simp [RenderApp.speak, ht, ha]
  · intro ha
    simp [App.api_speak, ht, ha]

/-- Witness for C9: a run that exits 0 after writing an empty file gets
the 500 JSON error from both endpoints. -/
theorem claim_C9_empty_audio_witness :
    RenderApp.speak (some "Hello Nigeria!") (some "female")
      (.exited 0 (some [])) =
      (.jsonErr 500 "TTS generation failed", true) ∧
    App.api_speak (some "Hello Nigeria!") (some "female")
      (.exited 0 (some [])) =
      (.jsonErr 500 "TTS generation failed", true) :=
  ⟨(claim_C9_empty_audio "Hello Nigeria!" "female"
      (.exited 0 (some [])) (by decide)).1 rfl,
   (claim_C9_empty_audio "Hello Nigeria!" "female"
      (.exited 0 (some [])) (by decide)).2 rfl⟩

/-- C10: a key-creation request whose `Authorization` header is not
exactly `Bearer` followed by the admin token is answered 403 with a JSON
error and the key store is unchanged. -/
theorem claim_C10_create_key_forbidden (ADMIN_TOKEN auth : String)
    (name? : Option String) (key_id raw_key : String)
    (sha256hex : String → String) (store : List RenderApp.APIKey)
    (h : auth ≠ "Bearer " ++ ADMIN_TOKEN) :
    RenderApp.create_api_key ADMIN_TOKEN auth name? key_id raw_key
      sha256hex store = (.err 403 "Unauthorized", store) := by
  simp [RenderApp.create_api_key, h]

/-- Witness for C10: a request with a wrong bearer token against the
default admin token is rejected 403 and an empty store stays empty. -/
theorem claim_C10_create_key_forbidden_witness :
    RenderApp.create_api_key "odiadev-admin-2025" "Bearer wrong"
      (some "My Key") "id1" "odiadev_rawkey" (fun s => s) [] =
      (.err 403 "Unauthorized", []) :=
  claim_C10_create_key_forbidden "odiadev-admin-2025" "Bearer wrong"
    (some "My Key") "id1" "odiadev_rawkey" (fun s => s) [] (by decide)

end OdiaTTS
